import Mathlib

/-
Shallow embedding of the Yeab-game-zone Ludo bot:
  src/bot/game_logic.py      (class LudoGame: board rules)
  src/database_models/manager.py (class DBManager: ledger and game store)
  src/bot/callbacks.py       (handle_join_game / handle_roll_dice /
                              handle_move_token / handle_pass_turn /
                              handle_game_over)
  src/bot/dispute_resolver.py (resolve_game, find_inactive_games scan)

Money values (Postgres DECIMAL / Python Decimal) are embedded as exact
rationals.  Token positions use the source's integer encoding:
-1 = yard, 0..51 = shared path, 52..57 = home stretch, 58 = home.
Fallible Python code (KeyError / IndexError / ValueError / StopIteration,
or an aborted SQL transaction) is embedded as `Option`, with `none`
standing for the raised exception (no state mutation escapes it).
-/

/-- Per-player dict built by `LudoGame.add_player`:
`{'player_index': .., 'color': .., 'start_pos': .., 'tokens': [-1,-1,-1,-1]}`. -/
structure PlayerData where
  player_index : Nat
  color : String
  start_pos : Int
  tokens : List Int
deriving DecidableEq

/-- State of a `LudoGame` instance (src/bot/game_logic.py).  `players` models
the insertion-ordered Python dict keyed by telegram id.  The Python `stake`
attribute is a float the board logic never reads; its numeric value is carried
as a rational. -/
structure LudoGame where
  players : List (Int × PlayerData)
  player_order : List Int
  stake : Rat
  win_condition : Int
  current_turn_player_id : Int
  dice_roll : Int
  consecutive_sixes : Int
  winner : Option Int
deriving DecidableEq

/-- `LudoGame.PATH_LENGTH`. -/
def PATH_LENGTH : Int := 52

/-- `LudoGame.HOME_STRETCH_START`. -/
def HOME_STRETCH_START : Int := 52

/-- `LudoGame.WINNING_POSITION`. -/
def WINNING_POSITION : Int := 58

/-- `LudoGame.SAFE_ZONES`. -/
def SAFE_ZONES : List Int := [0, 8, 13, 21, 26, 34, 39, 47]

/-- `LudoGame.PLAYER_CONFIG`: color and start position per player index. -/
def PLAYER_CONFIG : List (String × Int) :=
  [("red", 0), ("green", 13), ("yellow", 26), ("blue", 39)]

/-- Python dict read `self.players[player_id]`; `none` is the KeyError case. -/
def dict_get (ps : List (Int × PlayerData)) (pid : Int) : Option PlayerData :=
  (ps.find? (fun e => e.1 == pid)).map (fun e => e.2)

/-- Python dict write `self.players[player_id] = pd` (overwrite in place when
the key exists, append otherwise). -/
def dict_set (ps : List (Int × PlayerData)) (pid : Int) (pd : PlayerData) :
    List (Int × PlayerData) :=
  if ps.any (fun e => e.1 == pid) then
    ps.map (fun e => if e.1 = pid then (pid, pd) else e)
  else ps ++ [(pid, pd)]

/-- `LudoGame.add_player`. -/
def add_player (g : LudoGame) (pid : Int) : LudoGame × Bool :=
  if 4 ≤ g.players.length then (g, false)
  else
    match PLAYER_CONFIG[g.players.length]? with
    | none => (g, false)
    | some cfg =>
      ({ g with
          players := dict_set g.players pid
              ({ player_index := g.players.length, color := cfg.1,
                 start_pos := cfg.2, tokens := [-1, -1, -1, -1] }),
          player_order := g.player_order ++ [pid] }, true)

/-- `LudoGame.__init__(creator_id, stake, win_condition)`: fresh state plus
`add_player(creator_id)`. -/
def init_game (creator_id : Int) (stake : Rat) (win_condition : Int) : LudoGame :=
  (add_player
    { players := [], player_order := [], stake := stake,
      win_condition := win_condition, current_turn_player_id := creator_id,
      dice_roll := 0, consecutive_sixes := 0, winner := none } creator_id).1

/-- `LudoGame.roll_dice` with the drawn face value `d` made explicit
(`random.randint(1, 6)` in the source); returns the updated state together
with the source's return pair `(dice_roll, turn_lost)`. -/
def roll_dice (g : LudoGame) (d : Int) : LudoGame × Int × Bool :=
  let sixes := if d = 6 then g.consecutive_sixes + 1 else 0
  let turn_lost := sixes = 3
  ({ g with dice_roll := d,
            consecutive_sixes := if turn_lost then 0 else sixes },
   d, decide turn_lost)

/-- `LudoGame.get_movable_tokens`; `none` is the KeyError on a missing player. -/
def get_movable_tokens (g : LudoGame) (pid : Int) : Option (List Nat) :=
  (dict_get g.players pid).map (fun pd =>
    (List.range pd.tokens.length).filter (fun i =>
      match pd.tokens[i]? with
      | none => false
      | some pos =>
        if pos = WINNING_POSITION then false
        else if pos = -1 then g.dice_roll = 6
        else if HOME_STRETCH_START ≤ pos then pos + g.dice_roll ≤ WINNING_POSITION
        else true))

/-- The `for _ in range(dice_roll)` loop of `LudoGame.move_token` that sets
`is_passing_home` when stepping through the mover's start cell. -/
def passes_start (start_pos : Int) : Int → Nat → Bool
  | _, 0 => false
  | cur, n + 1 =>
    let t := (cur + 1) % PATH_LENGTH
    if t = start_pos then true else passes_start start_pos t n

/-- The destination computation of `LudoGame.move_token` for a token already on
the board (case 2 of the source, before the beyond-58 revert check). -/
def compute_new_pos (start_pos current_pos dice : Int) : Int :=
  let home_entry_pos := (start_pos - 1 + PATH_LENGTH) % PATH_LENGTH
  let is_passing_home := passes_start start_pos current_pos dice.toNat
  if ¬ is_passing_home ∧ current_pos < HOME_STRETCH_START then
    (current_pos + dice) % PATH_LENGTH
  else if current_pos < HOME_STRETCH_START then
    HOME_STRETCH_START +
      (dice - ((home_entry_pos - current_pos + PATH_LENGTH) % PATH_LENGTH)) - 1
  else
    current_pos + dice

/-- The inner loop of `LudoGame._handle_knockout` over `data['tokens']`:
every token of this opponent standing on `pos` is sent back to the yard. -/
def knock_tokens (pos : Int) (pd : PlayerData) : PlayerData :=
  { pd with tokens := pd.tokens.map (fun t => if t = pos then -1 else t) }

/-- The player-dict loop of `LudoGame._handle_knockout`: the current player is
skipped; a blocked cell (`count(position) > 1` for some opponent) executes the
source's `return`, aborting the whole loop and leaving the remaining players
untouched. -/
def knockout_loop (pos cur : Int) :
    List (Int × PlayerData) → List (Int × PlayerData)
  | [] => []
  | e :: rest =>
    if e.1 = cur then e :: knockout_loop pos cur rest
    else if 1 < e.2.tokens.count pos then e :: rest
    else (e.1, knock_tokens pos e.2) :: knockout_loop pos cur rest

/-- `LudoGame._handle_knockout`. -/
def handle_knockout (g : LudoGame) (pos cur : Int) : LudoGame :=
  if pos ∈ SAFE_ZONES then g
  else { g with players := knockout_loop pos cur g.players }

/-- `LudoGame.check_for_winner`; `none` is the KeyError on a missing player. -/
def check_for_winner (g : LudoGame) (pid : Int) : Option LudoGame :=
  (dict_get g.players pid).map (fun pd =>
    if g.win_condition ≤ (pd.tokens.count WINNING_POSITION : Int) then
      { g with winner := some pid }
    else g)

/-- The token-list update `player_data['tokens'][token_index] = new_pos`
performed by `LudoGame.move_token`. -/
def set_token (pd : PlayerData) (i : Nat) (v : Int) : PlayerData :=
  { pd with tokens := pd.tokens.set i v }

/-- `LudoGame.move_token`.  Case 1 (yard exit) returns before the winner check,
matching the source's early `return`; case 2 computes the destination,
silently reverts a beyond-58 result to the current position, applies knockout
for shared-path landings, then re-evaluates the win condition. -/
def move_token (g : LudoGame) (pid : Int) (token_index : Nat) :
    Option LudoGame :=
  match dict_get g.players pid with
  | none => none
  | some pd =>
    match pd.tokens[token_index]? with
    | none => none
    | some current_pos =>
      if current_pos = -1 then
        let new_pos := pd.start_pos
        let pd1 := set_token pd token_index new_pos
        let g1 := { g with players := dict_set g.players pid pd1 }
        some (handle_knockout g1 new_pos pid)
      else
        let raw := compute_new_pos pd.start_pos current_pos g.dice_roll
        let new_pos := if WINNING_POSITION < raw then current_pos else raw
        let pd1 := set_token pd token_index new_pos
        let g1 := { g with players := dict_set g.players pid pd1 }
        let g2 := if new_pos < HOME_STRETCH_START then
                    handle_knockout g1 new_pos pid
                  else g1
        check_for_winner g2 pid

/-- `LudoGame.advance_turn`; `none` is the ValueError raised by
`player_order.index` when the current id is not in the order list. -/
def advance_turn (g : LudoGame) : Option LudoGame :=
  (g.player_order.findIdx? (fun x => x == g.current_turn_player_id)).bind
    (fun i =>
      (g.player_order[(i + 1) % g.player_order.length]?).map
        (fun nid => { g with current_turn_player_id := nid }))

/-- The dict returned by `LudoGame.get_state` (also the games.game_data JSONB
payload): only these four fields are serialized. -/
structure GameData where
  players : List (Int × PlayerData)
  current_turn_player_id : Int
  dice_roll : Int
  winner : Option Int
deriving DecidableEq

/-- `LudoGame.get_state`. -/
def get_state (g : LudoGame) : GameData :=
  { players := g.players, current_turn_player_id := g.current_turn_player_id,
    dice_roll := g.dice_roll, winner := g.winner }

/-- The games.status column: 'lobby' | 'active' | 'finished' | 'forfeited'. -/
inductive GameStatus
  | lobby
  | active
  | finished
  | forfeited
deriving DecidableEq

/-- One row of the games table (DBManager.setup_database). -/
structure GameRow where
  game_id : Int
  creator_id : Int
  opponent_id : Option Int
  stake : Rat
  win_condition : Int
  winner_id : Option Int
  status : GameStatus
  current_turn_id : Option Int
  game_data : GameData
  last_action_at : Int
deriving DecidableEq

/-- The persistent store: users table as a map from telegram_id to balance,
games table as a list of rows. -/
structure DB where
  users : Int → Option Rat
  games : List GameRow

/-- `UPDATE users SET balance = balance + $1 WHERE telegram_id = $2`
(a no-op when no row matches). -/
def credit_user (users : Int → Option Rat) (uid : Int) (amt : Rat) :
    Int → Option Rat :=
  fun x => if x = uid then (users uid).map (fun b => b + amt) else users x

/-- `UPDATE users SET balance = balance - $1 WHERE telegram_id = $2`. -/
def debit_user (users : Int → Option Rat) (uid : Int) (amt : Rat) :
    Int → Option Rat :=
  fun x => if x = uid then (users uid).map (fun b => b - amt) else users x

/-- `DBManager.start_game_transaction`: locks both user rows, compares each
balance with the stake, and either debits both inside the transaction or
returns False having changed nothing.  `none` models the aborted transaction
(comparing a missing row's NULL balance raises, rolling everything back); the
second fetch happens before the first comparison, and the `or` short-circuits,
matching the source's evaluation order. -/
def start_game_transaction (users : Int → Option Rat)
    (creator_id opponent_id : Int) (stake : Rat) :
    Option ((Int → Option Rat) × Bool) :=
  match users creator_id, users opponent_id with
  | some cb, some ob =>
    if cb < stake ∨ ob < stake then some (users, false)
    else some (debit_user (debit_user users creator_id stake) opponent_id stake,
               true)
  | some cb, none => if cb < stake then some (users, false) else none
  | none, _ => none

/-- `DBManager.end_game_transaction`: computes the prize with a 10% commission
(`Decimal('0.10')`), credits the winner, and writes the terminal status plus
winner id — with no check of the row's current status. -/
def end_game_transaction (db : DB) (game_id winner_id : Int) (stake : Rat)
    (forfeited : Bool) : DB × Rat :=
  let total_pot := stake * 2
  let commission := total_pot * (10 / 100 : Rat)
  let prize := total_pot - commission
  let users1 := credit_user db.users winner_id prize
  let final_status := if forfeited then GameStatus.forfeited
                      else GameStatus.finished
  let games1 := db.games.map (fun r =>
    if r.game_id = game_id then
      { r with status := final_status, winner_id := some winner_id }
    else r)
  ({ users := users1, games := games1 }, prize)

/-- `DBManager.save_game_state`: writes game_data, current_turn_id and resets
last_action_at to NOW(). -/
def save_game_state (db : DB) (game_id : Int) (gd : GameData) (turn : Int)
    (now : Int) : DB :=
  { db with games := db.games.map (fun r =>
      if r.game_id = game_id then
        { r with game_data := gd, current_turn_id := some turn,
                 last_action_at := now }
      else r) }

/-- `DBManager.find_inactive_games`: rows in status 'active' whose last action
is older than `now - timeout_seconds`. -/
def find_inactive_games (db : DB) (timeout_seconds now : Int) : List GameRow :=
  db.games.filter (fun r =>
    decide (r.status = GameStatus.active ∧
            r.last_action_at < now - timeout_seconds))

/-- `DBManager.get_game` / `get_full_game_state`. -/
def get_game (db : DB) (game_id : Int) : Option GameRow :=
  db.games.find? (fun r => r.game_id == game_id)

/-- The rehydration idiom of src/bot/callbacks.py:
`game = LudoGame(creator_id=0, stake=0, win_condition=0)` followed by
`game.__dict__.update(game_record['game_data'])`.  Only the four serialized
fields are overwritten; `player_order`, `win_condition`, `consecutive_sixes`
and `stake` keep the freshly constructed values ([0], 0, 0, 0). -/
def rehydrate (gd : GameData) : LudoGame :=
  { init_game 0 0 0 with
      players := gd.players,
      current_turn_player_id := gd.current_turn_player_id,
      dice_roll := gd.dice_roll, winner := gd.winner }

/-- Result of one callback handler as observed at the store: an early-return
rejection, a normal completion that saved state, a game-over settlement, or an
uncaught exception (crash) before any store write. -/
inductive Outcome
  | rejected
  | completed
  | gameOver
  | crashed
deriving DecidableEq

/-- Python truthiness of `game.winner` in `if game.winner:` — None and 0 are
falsy. -/
def winner_truthy : Option Int → Bool
  | none => false
  | some w => w != 0

/-- `handle_game_over` (src/bot/callbacks.py): picks the loser from
`player_order`, then settles via `end_game_transaction(..., forfeited)` left at
its default False. -/
def handle_game_over (db : DB) (game_id : Int) (r : GameRow) (g : LudoGame) :
    DB × Outcome :=
  match g.winner with
  | none => (db, Outcome.crashed)
  | some w =>
    match g.player_order.find? (fun pid => pid != w) with
    | none => (db, Outcome.crashed)
    | some _ =>
      ((end_game_transaction db game_id w r.stake false).1, Outcome.gameOver)

/-- `handle_roll_dice` (src/bot/callbacks.py) with the drawn face `d` and the
clock reading `now` made explicit.  Only the game-exists and current-turn
checks guard the action; the game's status is never consulted. -/
def handle_roll_dice (db : DB) (actor game_id d now : Int) : DB × Outcome :=
  match get_game db game_id with
  | none => (db, Outcome.rejected)
  | some r =>
    if some actor ≠ r.current_turn_id then (db, Outcome.rejected)
    else
      let g := rehydrate r.game_data
      let rolled := roll_dice g d
      if rolled.2.2 then
        match advance_turn rolled.1 with
        | none => (db, Outcome.crashed)
        | some g2 =>
          match dict_get g2.players g2.current_turn_player_id with
          | none => (db, Outcome.crashed)
          | some _ =>
            (save_game_state db game_id (get_state g2)
               g2.current_turn_player_id now, Outcome.completed)
      else
        match get_movable_tokens rolled.1 actor with
        | none => (db, Outcome.crashed)
        | some _ =>
          (save_game_state db game_id (get_state rolled.1)
             rolled.1.current_turn_player_id now, Outcome.completed)

/-- `handle_move_token` (src/bot/callbacks.py): after the game-exists and
current-turn guards, the caller-supplied token index is handed straight to
`move_token`; `get_movable_tokens` is never consulted here. -/
def handle_move_token (db : DB) (actor game_id : Int) (token_index : Nat)
    (now : Int) : DB × Outcome :=
  match get_game db game_id with
  | none => (db, Outcome.rejected)
  | some r =>
    if some actor ≠ r.current_turn_id then (db, Outcome.rejected)
    else
      let g := rehydrate r.game_data
      match move_token g actor token_index with
      | none => (db, Outcome.crashed)
      | some g1 =>
        if winner_truthy g1.winner then handle_game_over db game_id r g1
        else
          match (if g1.dice_roll ≠ 6 then advance_turn g1 else some g1) with
          | none => (db, Outcome.crashed)
          | some g2 =>
            match dict_get g2.players g2.current_turn_player_id with
            | none => (db, Outcome.crashed)
            | some _ =>
              (save_game_state db game_id (get_state g2)
                 g2.current_turn_player_id now, Outcome.completed)

/-- `handle_pass_turn` (src/bot/callbacks.py). -/
def handle_pass_turn (db : DB) (actor game_id now : Int) : DB × Outcome :=
  match get_game db game_id with
  | none => (db, Outcome.rejected)
  | some r =>
    if some actor ≠ r.current_turn_id then (db, Outcome.rejected)
    else
      let g := rehydrate r.game_data
      match advance_turn g with
      | none => (db, Outcome.crashed)
      | some g1 =>
        match dict_get g1.players g1.current_turn_player_id with
        | none => (db, Outcome.crashed)
        | some _ =>
          (save_game_state db game_id (get_state g1)
             g1.current_turn_player_id now, Outcome.completed)

/-- `resolve_game` (src/bot/dispute_resolver.py): the forfeiting party is the
current-turn holder, the winner the other party; a falsy winner id aborts
without settling; otherwise the identical `end_game_transaction` used by a
normal win runs with `forfeited=True`.  `none` means the function returned
without settling. -/
def resolve_game (db : DB) (game : GameRow) : Option (DB × Rat) :=
  let forfeiting := game.current_turn_id
  let winner : Option Int :=
    if forfeiting = some game.creator_id then game.opponent_id
    else some game.creator_id
  match winner with
  | none => none
  | some w =>
    if w = 0 then none
    else some (end_game_transaction db game.game_id w game.stake true)

/-- The status of the row with the given id, as read back from the store. -/
def status_of (db : DB) (game_id : Int) : Option GameStatus :=
  (get_game db game_id).map (fun r => r.status)

/-
Claim theorems: ledger layer (C1, C2, C3, C9).
-/

/-- Board snapshot used by the concrete C1 scenario (its contents are
irrelevant to settlement). -/
def gdC1 : GameData :=
  { players := [], current_turn_player_id := 100, dice_roll := 0,
    winner := none }

/-- Games-table row of the C1 scenario: game 1 is active, creator 100 holds
the turn, opponent is 200, stake is 50, last action at time 0. -/
def rowC1 : GameRow :=
  { game_id := 1, creator_id := 100, opponent_id := some 200, stake := 50,
    win_condition := 1, winner_id := none, status := GameStatus.active,
    current_turn_id := some 100, game_data := gdC1, last_action_at := 0 }

/-- Store of the C1 scenario: balances 10 and 20, one active game. -/
def dbC1 : DB :=
  { users := fun x => if x = 100 then some 10 else
                      if x = 200 then some 20 else none,
    games := [rowC1] }

/-- Store after the normal-win settlement of game 1 credited player 100. -/
def dbC1after : DB := (end_game_transaction dbC1 1 100 50 false).1

/-- C1: settlement is not enforced to happen at most once.  The dispute scan
run at time 1000 selects the still-active row; a normal win then settles the
game (crediting 100 and writing status finished); feeding the already-scanned
row to the resolver settles it a second time: `end_game_transaction` consults
no status, so player 200 is credited another full prize and the terminal
status and winner id are overwritten.  Two credits and two terminal-status
writes occur, refuting the at-most-once property the spec states. -/
theorem c1_double_settlement :
    rowC1 ∈ find_inactive_games dbC1 90 1000 ∧
    dbC1after.users 100 = some 100 ∧
    status_of dbC1after 1 = some GameStatus.finished ∧
    (resolve_game dbC1after rowC1).map
        (fun r => (r.1.users 100, r.1.users 200, status_of r.1 1,
                   (get_game r.1 1).map GameRow.winner_id)) =
      some (some 100, some 110, some GameStatus.forfeited, some (some 200)) := by
  refine ⟨by decide, ?_, by decide, ?_⟩
  · simp only [dbC1after, end_game_transaction, dbC1, credit_user]
    norm_num
  · simp only [dbC1after, end_game_transaction, dbC1, rowC1, gdC1, resolve_game,
      status_of, get_game]
    norm_num [credit_user]

/-- C2: `start_game_transaction` debits both players by the stake exactly when
both locked balances are at least the stake, and otherwise fails leaving every
balance untouched; in no outcome is only one side debited. -/
theorem c2_join_escrow_atomic (users : Int → Option Rat) (c o : Int)
    (s cb ob : Rat) (hco : c ≠ o)
    (hc : users c = some cb) (ho : users o = some ob) :
    ((cb < s ∨ ob < s) → start_game_transaction users c o s = some (users, false)) ∧
    (s ≤ cb → s ≤ ob →
      start_game_transaction users c o s =
        some (debit_user (debit_user users c s) o s, true) ∧
      debit_user (debit_user users c s) o s c = some (cb - s) ∧
      debit_user (debit_user users c s) o s o = some (ob - s) ∧
      ∀ x, x ≠ c → x ≠ o →
        debit_user (debit_user users c s) o s x = users x) := by
  constructor
  · intro h
    simp only [start_game_transaction, hc, ho]
    rw [if_pos h]
  · intro h1 h2
    have hcond : ¬ (cb < s ∨ ob < s) := by
      push_neg
      exact ⟨h1, h2⟩
    refine ⟨?_, ?_, ?_, ?_⟩
    · simp only [start_game_transaction, hc, ho]
      rw [if_neg hcond]
    · simp [debit_user, hco, hc]
    · simp [debit_user, Ne.symm hco, ho]
    · intro x hxc hxo
      simp [debit_user, hxc, hxo]

/-- Balances used by the C2 witness: player 1 holds 100, player 2 holds 30. -/
def usersC2 : Int → Option Rat :=
  fun x => if x = 1 then some 100 else if x = 2 then some 30 else none

/-- Witness for C2: joining with stake 20 debits both sides, 100 − 20 = 80 and
30 − 20 = 10. -/
theorem c2_join_escrow_atomic_witness :
    start_game_transaction usersC2 1 2 20 =
      some (debit_user (debit_user usersC2 1 20) 2 20, true) ∧
    debit_user (debit_user usersC2 1 20) 2 20 1 = some 80 ∧
    debit_user (debit_user usersC2 1 20) 2 20 2 = some 10 := by
  have h := (c2_join_escrow_atomic usersC2 1 2 20 100 30 (by decide)
      (by decide) (by decide)).2 (by norm_num) (by norm_num)
  refine ⟨h.1, ?_, ?_⟩
  · rw [h.2.1]
    norm_num
  · rw [h.2.2.1]
    norm_num

/-- C3: `end_game_transaction` returns and credits exactly
stake · 2 · (1 − 0.10): the prize equals the spec's formula for every stake,
the winner's balance is credited by precisely that amount, and for stake 50
the prize is exactly 90. -/
theorem c3_prize_formula (db : DB) (gid w : Int) (s b : Rat) (f : Bool)
    (hb : db.users w = some b) :
    (end_game_transaction db gid w s f).2 = s * 2 * (1 - 10 / 100) ∧
    (end_game_transaction db gid w s f).1.users w =
      some (b + s * 2 * (1 - 10 / 100)) ∧
    (end_game_transaction db gid w (50 : Rat) f).2 = 90 := by
  refine ⟨?_, ?_, ?_⟩
  · simp only [end_game_transaction]
    ring
  · simp [end_game_transaction, credit_user, hb]
    ring_nf
  · simp only [end_game_transaction]
    norm_num

/-- Store used by the C3 witness: player 7 holds balance 5. -/
def dbC3 : DB := { users := fun x => if x = 7 then some 5 else none, games := [] }

/-- Witness for C3: settling stake 50 pays exactly 90 and lifts balance 5 to 95. -/
theorem c3_prize_formula_witness :
    (end_game_transaction dbC3 1 7 50 false).2 = 50 * 2 * (1 - 10 / 100) ∧
    (end_game_transaction dbC3 1 7 50 false).1.users 7 =
      some (5 + 50 * 2 * (1 - 10 / 100)) ∧
    (end_game_transaction dbC3 1 7 (50 : Rat) false).2 = 90 :=
  c3_prize_formula dbC3 1 7 50 5 false (by decide)

/-- C9: a game selected by the inactivity scan (status active, stale last
action) is resolved by declaring the current-turn holder the forfeiter and the
other party the winner, settling through the identical
`end_game_transaction` path a normal win uses (with forfeited set), which
credits the winner the normal prize formula and writes status forfeited plus
the winner id. -/
theorem c9_forced_forfeit (db : DB) (g : GameRow) (timeout now t o : Int)
    (b : Rat)
    (hscan : g ∈ find_inactive_games db timeout now)
    (ht : g.current_turn_id = some t)
    (ho : g.opponent_id = some o)
    (ho0 : o ≠ 0) (hc0 : g.creator_id ≠ 0)
    (hb : db.users (if t = g.creator_id then o else g.creator_id) = some b) :
    g.status = GameStatus.active ∧
    resolve_game db g =
      some (end_game_transaction db g.game_id
              (if t = g.creator_id then o else g.creator_id) g.stake true) ∧
    (end_game_transaction db g.game_id
        (if t = g.creator_id then o else g.creator_id) g.stake true).1.users
        (if t = g.creator_id then o else g.creator_id) =
      some (b + g.stake * 2 * (1 - 10 / 100)) ∧
    ∀ r ∈ (end_game_transaction db g.game_id
        (if t = g.creator_id then o else g.creator_id) g.stake true).1.games,
      r.game_id = g.game_id →
        r.status = GameStatus.forfeited ∧
        r.winner_id = some (if t = g.creator_id then o else g.creator_id) := by
  have hstat : g.status = GameStatus.active ∧ g.last_action_at < now - timeout := by
    have hmem := List.mem_filter.mp hscan
    exact of_decide_eq_true hmem.2
  refine ⟨hstat.1, ?_, ?_, ?_⟩
  · rcases eq_or_ne t g.creator_id with h | h
    · simp [resolve_game, ht, ho, h, ho0]
    · simp [resolve_game, ht, ho, h, hc0]
  · simp [end_game_transaction, credit_user, hb]
    ring_nf
  · intro r hr hid
    simp only [end_game_transaction, List.mem_map] at hr
    obtain ⟨r0, hr0, rfl⟩ := hr
    by_cases h0 : r0.game_id = g.game_id
    · rw [if_pos h0]
      exact ⟨rfl, rfl⟩
    · rw [if_neg h0]
      rw [if_neg h0] at hid
      exact absurd hid h0

/-
Helper lemmas about the board embedding (shared by the board claims).
-/

/-- A successful dict read means some entry carries the key. -/
theorem yz_any_of_get {ps : List (Int × PlayerData)} {pid : Int}
    {pd : PlayerData} (h : dict_get ps pid = some pd) :
    ps.any (fun e => e.1 == pid) = true := by
  simp only [dict_get, Option.map_eq_some'] at h
  obtain ⟨e, he, rfl⟩ := h
  refine List.any_eq_true.mpr ⟨e, List.mem_of_find?_eq_some he, ?_⟩
  have hp := List.find?_some he
  simpa using hp

/-- Overwriting an existing key makes the first matching entry carry the new
value. -/
theorem yz_find_map_set (ps : List (Int × PlayerData)) (pid : Int)
    (pd1 : PlayerData) (h : ps.any (fun e => e.1 == pid) = true) :
    (ps.map (fun e => if e.1 = pid then (pid, pd1) else e)).find?
        (fun e => e.1 == pid) = some (pid, pd1) := by
  induction ps with
  | nil => simp at h
  | cons a l ih =>
    by_cases ha : a.1 = pid
    · simp [ha]
    · have h' : l.any (fun e => e.1 == pid) = true := by
        simp only [List.any_cons, Bool.or_eq_true, beq_iff_eq] at h
        rcases h with h | h
        · exact absurd h ha
        · simpa using h
      simp [ha, ih h']

/-- Reading back the key just written through `dict_set`. -/
theorem yz_dict_get_set_self {ps : List (Int × PlayerData)} {pid : Int}
    {pd : PlayerData} (pd1 : PlayerData) (h : dict_get ps pid = some pd) :
    dict_get (dict_set ps pid pd1) pid = some pd1 := by
  have hany := yz_any_of_get h
  simp only [dict_set, hany, if_true, dict_get,
    yz_find_map_set ps pid pd1 hany, Option.map_some']

/-- An entry of `dict_set ps pid pd` whose key differs from `pid` already was
in `ps` unchanged. -/
theorem yz_mem_dict_set_ne {ps : List (Int × PlayerData)} {pid : Int}
    {pd : PlayerData} {e : Int × PlayerData}
    (he : e ∈ dict_set ps pid pd) (hne : e.1 ≠ pid) : e ∈ ps := by
  simp only [dict_set] at he
  split at he
  · obtain ⟨a, ha, hfa⟩ := List.mem_map.mp he
    by_cases h : a.1 = pid
    · rw [if_pos h] at hfa
      rw [← hfa] at hne
      exact absurd rfl hne
    · rw [if_neg h] at hfa
      rw [← hfa]
      exact ha
  · rcases List.mem_append.mp he with h | h
    · exact h
    · simp only [List.mem_singleton] at h
      rw [h] at hne
      exact absurd rfl hne

/-- The knockout loop never touches entries keyed by the moving player. -/
theorem yz_find_knockout_cur (pos cur : Int) (ps : List (Int × PlayerData)) :
    (knockout_loop pos cur ps).find? (fun e => e.1 == cur) =
      ps.find? (fun e => e.1 == cur) := by
  induction ps with
  | nil => rfl
  | cons a l ih =>
    by_cases ha : a.1 = cur
    · simp [knockout_loop, ha]
    · by_cases hb : 1 < a.2.tokens.count pos
      · simp [knockout_loop, ha, hb]
      · simp [knockout_loop, ha, hb, ih]

/-- The moving player's own entry is unchanged by `handle_knockout`. -/
theorem yz_handle_knockout_get_cur (g : LudoGame) (pos cur : Int) :
    dict_get (handle_knockout g pos cur).players cur =
      dict_get g.players cur := by
  simp only [handle_knockout]
  split
  · rfl
  · simp only [dict_get, yz_find_knockout_cur]

/-- Sending tokens on `pos` to the yard is a no-op when none stands there. -/
theorem yz_map_noknock (pos : Int) (l : List Int) (h : pos ∉ l) :
    l.map (fun t => if t = pos then -1 else t) = l := by
  induction l with
  | nil => rfl
  | cons a l ih =>
    simp only [List.mem_cons, not_or] at h
    have ha : a ≠ pos := fun hh => h.1 hh.symm
    simp [List.map_cons, if_neg ha, ih h.2]

/-- `knock_tokens` is the identity on a player with no token on `pos`. -/
theorem yz_knock_tokens_count_zero {pos : Int} {pd : PlayerData}
    (h : pd.tokens.count pos = 0) : knock_tokens pos pd = pd := by
  have hmem : pos ∉ pd.tokens := List.count_eq_zero.mp h
  simp [knock_tokens, yz_map_noknock pos pd.tokens hmem]

/-- When every opposing player has zero or at least two tokens on the landing
cell, the knockout loop changes nothing: blocks abort it and empty cells are
no-ops. -/
theorem yz_knockout_loop_id (pos cur : Int) (ps : List (Int × PlayerData))
    (h : ∀ e ∈ ps, e.1 ≠ cur → e.2.tokens.count pos ≠ 1) :
    knockout_loop pos cur ps = ps := by
  induction ps with
  | nil => rfl
  | cons a l ih =>
    have hl := ih (fun e he hne => h e (List.mem_cons_of_mem a he) hne)
    by_cases ha : a.1 = cur
    · simp [knockout_loop, ha, hl]
    · by_cases hb : 1 < a.2.tokens.count pos
      · simp [knockout_loop, ha, hb]
      · have hcount : a.2.tokens.count pos = 0 := by
          have := h a (List.mem_cons_self a l) ha
          omega
        simp [knockout_loop, ha, hb, yz_knock_tokens_count_zero hcount, hl]

/-- When no opposing player holds two tokens on the landing cell, the knockout
loop knocks out every opposing token standing there and nothing else. -/
theorem yz_knockout_loop_map (pos cur : Int) (ps : List (Int × PlayerData))
    (h : ∀ e ∈ ps, e.1 ≠ cur → e.2.tokens.count pos ≤ 1) :
    knockout_loop pos cur ps =
      ps.map (fun e => if e.1 = cur then e else (e.1, knock_tokens pos e.2)) := by
  induction ps with
  | nil => rfl
  | cons a l ih =>
    have hl := ih (fun e he hne => h e (List.mem_cons_of_mem a he) hne)
    by_cases ha : a.1 = cur
    · simp [knockout_loop, ha, hl]
    · have hb : ¬ 1 < a.2.tokens.count pos := by
        have := h a (List.mem_cons_self a l) ha
        omega
      simp [knockout_loop, ha, hb, hl]

/-- `check_for_winner` only ever touches the `winner` field. -/
theorem yz_check_players (g : LudoGame) (pid : Int) (pd : PlayerData)
    (h : dict_get g.players pid = some pd) :
    (check_for_winner g pid).map LudoGame.players = some g.players := by
  simp only [check_for_winner, h, Option.map_some']
  split <;> rfl

/-- Setting an in-range position and reading it back. -/
theorem yz_getElem_set_self (l : List Int) (i : Nat) (v w : Int)
    (h : l[i]? = some w) : (l.set i v)[i]? = some v := by
  obtain ⟨hlen, -⟩ := List.getElem?_eq_some_iff.mp h
  exact List.getElem?_set_self (by simpa using hlen)

/-- Winner evaluation can change only the `winner` field; the updated game
exists and keeps the player dict. -/
theorem yz_check_exists (g : LudoGame) (pid : Int) (pd : PlayerData)
    (h : dict_get g.players pid = some pd) :
    ∃ gx, check_for_winner g pid = some gx ∧ gx.players = g.players := by
  simp only [check_for_winner, h, Option.map_some']
  split
  · exact ⟨_, rfl, rfl⟩
  · exact ⟨_, rfl, rfl⟩

/-- C7: a successful move landing on a shared-path cell `np` (0 ≤ np < 52) —
either a yard exit, which lands on the player's start offset, or a board move
with destination computed by `compute_new_pos` — behaves as follows: when `np`
is not a safe cell and every opposing player holds at most one token there (so
in particular when exactly one opposing token occupies the cell), every
opposing token standing on `np` is sent back to the yard while the mover's
token is placed on `np`; when `np` is a safe cell the landing leaves every
opposing token untouched regardless of occupancy. -/
theorem c7_knockout_and_safe_cells (g : LudoGame) (p : Int) (i : Nat)
    (pd : PlayerData) (pos np : Int)
    (hp : dict_get g.players p = some pd)
    (ht : pd.tokens[i]? = some pos)
    (hland : (pos = -1 ∧ np = pd.start_pos) ∨
             (pos ≠ -1 ∧ compute_new_pos pd.start_pos pos g.dice_roll = np))
    (h0 : 0 ≤ np) (h52 : np < HOME_STRETCH_START) :
    (np ∉ SAFE_ZONES →
       (∀ e ∈ g.players, e.1 ≠ p → e.2.tokens.count np ≤ 1) →
       (move_token g p i).map LudoGame.players =
         some ((dict_set g.players p (set_token pd i np)).map
           (fun e => if e.1 = p then e else (e.1, knock_tokens np e.2)))) ∧
    (np ∈ SAFE_ZONES →
       (move_token g p i).map LudoGame.players =
         some (dict_set g.players p (set_token pd i np))) := by
  have hmain : (move_token g p i).map LudoGame.players =
      some (handle_knockout
        { g with players := dict_set g.players p (set_token pd i np) } np
          p).players := by
    rcases hland with ⟨hy, hnp⟩ | ⟨hpos, hnp⟩
    · subst hy
      subst hnp
      simp only [move_token, hp, ht]
      rw [if_pos trivial]
      rfl
    · have hnrev : ¬ WINNING_POSITION < np := by
        simp only [WINNING_POSITION]
        simp only [HOME_STRETCH_START] at h52
        omega
      have hget : dict_get (handle_knockout
          { g with players := dict_set g.players p (set_token pd i np) } np
            p).players p = some (set_token pd i np) := by
        rw [yz_handle_knockout_get_cur]
        exact yz_dict_get_set_self _ hp
      simp only [move_token, hp, ht]
      rw [if_neg hpos, hnp, if_neg hnrev, if_pos h52]
      exact yz_check_players _ p _ hget
  constructor
  · intro hsafe hcount
    rw [hmain]
    have hcount1 : ∀ e ∈ dict_set g.players p (set_token pd i np),
        e.1 ≠ p → e.2.tokens.count np ≤ 1 :=
      fun e he hne => hcount e (yz_mem_dict_set_ne he hne) hne
    simp only [handle_knockout, if_neg hsafe]
    rw [yz_knockout_loop_map np p _ hcount1]
  · intro hsafe
    rw [hmain]
    simp [handle_knockout, hsafe]

/-- Red player record with the given token list (start offset 0). -/
def pdRed (ts : List Int) : PlayerData :=
  { player_index := 0, color := "red", start_pos := 0, tokens := ts }

/-- Green player record with the given token list (start offset 13). -/
def pdGreen (ts : List Int) : PlayerData :=
  { player_index := 1, color := "green", start_pos := 13, tokens := ts }

/-- C7 witness scenario: red token 0 on cell 4, dice 6; green holds exactly
one token on the landing cell 10, which is not safe. -/
def gW7 : LudoGame :=
  { players := [(1, pdRed [4, -1, -1, -1]), (2, pdGreen [10, -1, -1, -1])],
    player_order := [1, 2], stake := 0, win_condition := 4,
    current_turn_player_id := 1, dice_roll := 6, consecutive_sixes := 0,
    winner := none }

/-- C7 yard-exit witness scenario: red's tokens all in the yard, dice 6;
green holds one token on red's start cell 0, which is a safe cell. -/
def gW7y : LudoGame :=
  { players := [(1, pdRed [-1, -1, -1, -1]), (2, pdGreen [0, -1, -1, -1])],
    player_order := [1, 2], stake := 0, win_condition := 4,
    current_turn_player_id := 1, dice_roll := 6, consecutive_sixes := 0,
    winner := none }

/-- Witness for C7, both landing modes: a board move onto non-safe cell 10
knocks the single green token there back to the yard while red stays on 10;
a yard exit onto the occupied start cell 0 (a safe cell) leaves green's token
in place. -/
theorem c7_knockout_and_safe_cells_witness :
    ((move_token gW7 1 0).map LudoGame.players =
       some [(1, pdRed [10, -1, -1, -1]), (2, pdGreen [-1, -1, -1, -1])]) ∧
    ((move_token gW7y 1 0).map LudoGame.players =
       some [(1, pdRed [0, -1, -1, -1]), (2, pdGreen [0, -1, -1, -1])]) := by
  constructor
  · have h := (c7_knockout_and_safe_cells gW7 1 0 (pdRed [4, -1, -1, -1]) 4 10
        (by decide) (by decide) (Or.inr ⟨by decide, by decide⟩) (by decide)
        (by decide)).1 (by decide) (by decide)
    rw [h]
    decide
  · have h := (c7_knockout_and_safe_cells gW7y 1 0 (pdRed [-1, -1, -1, -1])
        (-1) 0 (by decide) (by decide) (Or.inl ⟨by decide, by decide⟩)
        (by decide) (by decide)).2 (by decide)
    rw [h]
    decide

/-- C5 (amended): a move whose computed destination exceeds 58 silently keeps
the token's prior position (the source's revert) — while the action is still
accepted: `move_token` returns `some` state, signalling no rejection, and the
token's position is unchanged. -/
theorem c5_overshoot_silent_revert (g : LudoGame) (p : Int) (i : Nat)
    (pd : PlayerData) (pos : Int)
    (hp : dict_get g.players p = some pd)
    (ht : pd.tokens[i]? = some pos)
    (hst : HOME_STRETCH_START ≤ pos)
    (hover : WINNING_POSITION < pos + g.dice_roll) :
    (move_token g p i).isSome = true ∧
    (move_token g p i).bind
        (fun g1 => (dict_get g1.players p).bind (fun d => d.tokens[i]?)) =
      some pos := by
  have hpos : pos ≠ -1 := by
    simp only [HOME_STRETCH_START] at hst
    omega
  have hcnp : compute_new_pos pd.start_pos pos g.dice_roll =
      pos + g.dice_roll := by
    have hnlt : ¬ pos < HOME_STRETCH_START := not_lt.mpr hst
    simp only [compute_new_pos]
    rw [if_neg (fun h => hnlt h.2), if_neg hnlt]
  have hrev : move_token g p i =
      check_for_winner
        { g with players := dict_set g.players p (set_token pd i pos) } p := by
    simp only [move_token, hp, ht]
    rw [if_neg hpos, hcnp, if_pos hover, if_neg (not_lt.mpr hst)]
  have hget : dict_get (dict_set g.players p (set_token pd i pos)) p =
      some (set_token pd i pos) := yz_dict_get_set_self _ hp
  obtain ⟨gx, hgx, hpl⟩ := yz_check_exists
    { g with players := dict_set g.players p (set_token pd i pos) } p
    (set_token pd i pos) hget
  refine ⟨?_, ?_⟩
  · rw [hrev, hgx]
    rfl
  · rw [hrev, hgx, Option.some_bind, hpl]
    show (dict_get (dict_set g.players p (set_token pd i pos)) p).bind
        (fun d => d.tokens[i]?) = some pos
    rw [hget, Option.some_bind]
    show (pd.tokens.set i pos)[i]? = some pos
    exact yz_getElem_set_self _ _ _ _ ht

/-- C5 scenario: red's token 0 stands on home-stretch cell 57 and the dice
shows 5, so the computed destination 62 exceeds the terminal cell 58. -/
def gC5 : LudoGame :=
  { players := [(7, pdRed [57, -1, -1, -1]), (9, pdGreen [-1, -1, -1, -1])],
    player_order := [7, 9], stake := 0, win_condition := 4,
    current_turn_player_id := 7, dice_roll := 5, consecutive_sixes := 0,
    winner := none }

/-- C5 counterexample: with destination 57 + 5 = 62 > 58, the claim says
`move_token` rejects the action as an illegal move; the source instead
returns normally — the move is accepted and the whole state comes back
unchanged (the silent revert), with no rejection signal distinguishing it
from a legal move. -/
theorem c5_overshoot_counterexample :
    gC5.dice_roll = 5 ∧
    (dict_get gC5.players 7).map (fun d => d.tokens[0]?) = some (some 57) ∧
    WINNING_POSITION < 57 + gC5.dice_roll ∧
    move_token gC5 7 0 = some gC5 := by
  decide

/-- Witness for the amended C5: the overshooting move on `gC5` is accepted
(`isSome`) and token 0 still reads 57 afterwards. -/
theorem c5_overshoot_silent_revert_witness :
    (move_token gC5 7 0).isSome = true ∧
    (move_token gC5 7 0).bind
        (fun g1 => (dict_get g1.players 7).bind (fun d => d.tokens[0]?)) =
      some 57 :=
  c5_overshoot_silent_revert gC5 7 0 (pdRed [57, -1, -1, -1]) 57 (by decide)
    (by decide) (by decide) (by decide)

/-- C6 (amended): landing on a non-safe shared cell held by a block (some
opposing player with two or more tokens there, no opposing player with exactly
one) is not rejected: the moving token is placed on the cell and every
opposing token is left untouched — the knockout is skipped, the landing
allowed. -/
theorem c6_block_landing_not_rejected (g : LudoGame) (p : Int) (i : Nat)
    (pd : PlayerData) (pos np : Int)
    (hp : dict_get g.players p = some pd)
    (ht : pd.tokens[i]? = some pos)
    (hpos : pos ≠ -1)
    (hnp : compute_new_pos pd.start_pos pos g.dice_roll = np)
    (h0 : 0 ≤ np) (h52 : np < HOME_STRETCH_START)
    (hsafe : np ∉ SAFE_ZONES)
    (hblock : ∃ e ∈ g.players, e.1 ≠ p ∧ 2 ≤ e.2.tokens.count np)
    (hcounts : ∀ e ∈ g.players, e.1 ≠ p → e.2.tokens.count np ≠ 1) :
    (move_token g p i).map LudoGame.players =
      some (dict_set g.players p (set_token pd i np)) := by
  have hnrev : ¬ WINNING_POSITION < np := by
    simp only [WINNING_POSITION]
    simp only [HOME_STRETCH_START] at h52
    omega
  have hget : dict_get (handle_knockout
      { g with players := dict_set g.players p (set_token pd i np) } np
        p).players p = some (set_token pd i np) := by
    rw [yz_handle_knockout_get_cur]
    exact yz_dict_get_set_self _ hp
  simp only [move_token, hp, ht]
  rw [if_neg hpos, hnp, if_neg hnrev, if_pos h52]
  rw [yz_check_players _ p _ hget]
  have hcounts1 : ∀ e ∈ dict_set g.players p (set_token pd i np),
      e.1 ≠ p → e.2.tokens.count np ≠ 1 :=
    fun e he hne => hcounts e (yz_mem_dict_set_ne he hne) hne
  simp only [handle_knockout, if_neg hsafe]
  rw [yz_knockout_loop_id np p _ hcounts1]

/-- C6 scenario: red token 0 on cell 4, dice 6 — landing cell 10 is non-safe
and green holds a block of two tokens there. -/
def gC6 : LudoGame :=
  { players := [(1, pdRed [4, -1, -1, -1]), (2, pdGreen [10, 10, -1, -1])],
    player_order := [1, 2], stake := 0, win_condition := 4,
    current_turn_player_id := 1, dice_roll := 6, consecutive_sixes := 0,
    winner := none }

/-- The state `move_token` actually produces on `gC6`: red is placed on the
blocked cell 10 and green's block is untouched. -/
def gC6res : LudoGame :=
  { gC6 with
      players := [(1, pdRed [10, -1, -1, -1]), (2, pdGreen [10, 10, -1, -1])] }

/-- C6 counterexample: the claim says landing on a block is rejected with the
moving token not placed; the source instead places red's token on the blocked
cell 10 (skipping only the knockout), an accepted move. -/
theorem c6_block_counterexample :
    (10 : Int) ∉ SAFE_ZONES ∧
    (dict_get gC6.players 2).map (fun d => d.tokens.count 10) = some 2 ∧
    move_token gC6 1 0 = some gC6res ∧
    (dict_get gC6res.players 1).map (fun d => d.tokens[0]?) =
      some (some 10) ∧
    dict_get gC6res.players 2 = dict_get gC6.players 2 := by
  decide

/-- Witness for the amended C6: on `gC6` the block landing goes through, with
red placed on cell 10 and green's two tokens still there. -/
theorem c6_block_landing_not_rejected_witness :
    (move_token gC6 1 0).map LudoGame.players =
      some [(1, pdRed [10, -1, -1, -1]), (2, pdGreen [10, 10, -1, -1])] := by
  have h := c6_block_landing_not_rejected gC6 1 0 (pdRed [4, -1, -1, -1]) 4 10
    (by decide) (by decide) (by decide) (by decide) (by decide) (by decide)
    (by decide) ⟨(2, pdGreen [10, 10, -1, -1]), by decide, by decide, by decide⟩
    (by decide)
  rw [h]
  decide

/-- Whatever `handle_game_over` does (settle or crash), it never reports the
early-return rejection. -/
theorem yz_game_over_not_rejected (db : DB) (gid : Int) (r : GameRow)
    (g : LudoGame) : (handle_game_over db gid r g).2 ≠ Outcome.rejected := by
  simp only [handle_game_over]
  rcases g.winner with _ | w
  · simp
  · rcases hf : g.player_order.find? (fun pid => pid != w) with _ | l
    · simp [hf]
    · simp [hf]

/-- C10: `move_token` enforces no movability precondition — for every dice
value 1..6 (in particular values other than 6) a yard token is placed at the
player's start offset — and `handle_move_token` forwards the caller-supplied
token index to `move_token` without consulting `get_movable_tokens`: even an
index outside the movable set is never rejected. -/
theorem c10_no_movability_enforcement :
    (∀ (g : LudoGame) (p : Int) (i : Nat) (pd : PlayerData),
      dict_get g.players p = some pd → pd.tokens[i]? = some (-1) →
      1 ≤ g.dice_roll → g.dice_roll ≤ 6 →
      (move_token g p i).isSome = true ∧
      (move_token g p i).bind
          (fun g1 => (dict_get g1.players p).bind (fun d => d.tokens[i]?)) =
        some pd.start_pos) ∧
    (∀ (db : DB) (actor game_id : Int) (i : Nat) (now : Int) (r : GameRow),
      get_game db game_id = some r → r.current_turn_id = some actor →
      i ∉ (get_movable_tokens (rehydrate r.game_data) actor).getD [] →
      (handle_move_token db actor game_id i now).2 ≠ Outcome.rejected) := by
  constructor
  · intro g p i pd hp ht h1 h6
    have hmv : move_token g p i = some (handle_knockout
        { g with players := dict_set g.players p (set_token pd i pd.start_pos) }
        pd.start_pos p) := by
      simp only [move_token, hp, ht]
      rw [if_pos trivial]
    have hget : dict_get (handle_knockout
        { g with players := dict_set g.players p (set_token pd i pd.start_pos) }
        pd.start_pos p).players p = some (set_token pd i pd.start_pos) := by
      rw [yz_handle_knockout_get_cur]
      exact yz_dict_get_set_self _ hp
    refine ⟨by rw [hmv]; rfl, ?_⟩
    rw [hmv, Option.some_bind, hget, Option.some_bind]
    exact yz_getElem_set_self _ _ _ _ ht
  · intro db actor game_id i now r hr hturn hmov
    simp only [handle_move_token, hr]
    rw [hturn, if_neg (fun h => h rfl)]
    rcases hmt : move_token (rehydrate r.game_data) actor i with _ | g1
    · simp [hmt]
    · simp only [hmt]
      by_cases hw : winner_truthy g1.winner = true
      · simp only [hw, if_true]
        exact yz_game_over_not_rejected db game_id r g1
      · simp only [hw, if_false]
        rcases hadv : (if g1.dice_roll ≠ 6 then advance_turn g1 else some g1)
          with _ | g2
        · simp [hadv]
        · rcases hdg : dict_get g2.players g2.current_turn_player_id
            with _ | x
          · simp [hadv, hdg]
          · simp [hadv, hdg]

/-- C10 witness scenario: all tokens in the yard, dice 3 (not a six). -/
def gW10 : LudoGame :=
  { players := [(5, pdRed [-1, -1, -1, -1]), (6, pdGreen [-1, -1, -1, -1])],
    player_order := [5, 6], stake := 0, win_condition := 4,
    current_turn_player_id := 5, dice_roll := 3, consecutive_sixes := 0,
    winner := none }

/-- Stored-game row for the C10 handler witness: with dice 3 and every token
in the yard, the movable-token set of the rehydrated game is empty. -/
def rowW10 : GameRow :=
  { game_id := 1, creator_id := 5, opponent_id := some 6, stake := 50,
    win_condition := 1, winner_id := none, status := GameStatus.active,
    current_turn_id := some 5,
    game_data := { players := gW10.players, current_turn_player_id := 5,
                   dice_roll := 3, winner := none },
    last_action_at := 0 }

/-- Store for the C10 handler witness. -/
def dbW10 : DB := { users := fun _ => none, games := [rowW10] }

/-- Witness for C10: the yard token moves to start offset 0 on a roll of 3,
and the handler does not reject token index 2 although the movable set is
empty. -/
theorem c10_no_movability_enforcement_witness :
    ((move_token gW10 5 0).isSome = true ∧
     (move_token gW10 5 0).bind
         (fun g1 => (dict_get g1.players 5).bind (fun d => d.tokens[0]?)) =
       some 0) ∧
    (handle_move_token dbW10 5 1 2 99).2 ≠ Outcome.rejected := by
  constructor
  · have h := c10_no_movability_enforcement.1 gW10 5 0 (pdRed [-1, -1, -1, -1])
      (by decide) (by decide) (by decide) (by decide)
    exact ⟨h.1, h.2.trans (by decide)⟩
  · exact c10_no_movability_enforcement.2 dbW10 5 1 2 99 rowW10 (by decide)
      (by decide) (by decide)

/-- C8 (amended): for roll, move and pass alike, a missing game or an actor
other than the stored current-turn id is rejected with the store left fully
unchanged; these two are the only guards — the handlers never read the game's
status, so terminal games are not protected (see the counterexample). -/
theorem c8_reject_without_mutation (db : DB) (actor game_id d now : Int)
    (i : Nat)
    (h : get_game db game_id = none ∨
         ∃ r, get_game db game_id = some r ∧ some actor ≠ r.current_turn_id) :
    handle_roll_dice db actor game_id d now = (db, Outcome.rejected) ∧
    handle_move_token db actor game_id i now = (db, Outcome.rejected) ∧
    handle_pass_turn db actor game_id now = (db, Outcome.rejected) := by
  rcases h with h | ⟨r, hr, hne⟩
  · refine ⟨?_, ?_, ?_⟩
    · simp only [handle_roll_dice, h]
    · simp only [handle_move_token, h]
    · simp only [handle_pass_turn, h]
  · refine ⟨?_, ?_, ?_⟩
    · simp only [handle_roll_dice, hr]
      rw [if_pos hne]
    · simp only [handle_move_token, hr]
      rw [if_pos hne]
    · simp only [handle_pass_turn, hr]
      rw [if_pos hne]

/-- An empty store for the C8 witness. -/
def dbC8e : DB := { users := fun _ => none, games := [] }

/-- Witness for the amended C8: against an empty store every action is
rejected and the store is returned unchanged. -/
theorem c8_reject_without_mutation_witness :
    handle_roll_dice dbC8e 5 1 3 0 = (dbC8e, Outcome.rejected) ∧
    handle_move_token dbC8e 5 1 0 0 = (dbC8e, Outcome.rejected) ∧
    handle_pass_turn dbC8e 5 1 0 = (dbC8e, Outcome.rejected) :=
  c8_reject_without_mutation dbC8e 5 1 3 0 0 (Or.inl rfl)

/-- Snapshot stored with the finished game of the C8 counterexample. -/
def gdC8 : GameData :=
  { players := [(100, pdRed [10, 58, -1, -1]), (200, pdGreen [20, -1, -1, -1])],
    current_turn_player_id := 100, dice_roll := 0, winner := none }

/-- A game already settled: status finished, winner recorded, current-turn id
still populated. -/
def rowC8 : GameRow :=
  { game_id := 1, creator_id := 100, opponent_id := some 200, stake := 50,
    win_condition := 2, winner_id := some 100, status := GameStatus.finished,
    current_turn_id := some 100, game_data := gdC8, last_action_at := 0 }

/-- Store holding only the finished game. -/
def dbC8 : DB := { users := fun _ => none, games := [rowC8] }

/-- C8 counterexample: the claim says an action on a game in terminal status
is rejected with the stored state unchanged; the handlers never check the
status, so the current-turn holder rolling on the finished game is processed:
the stored snapshot's dice value changes 0 → 4 and the inactivity timestamp
0 → 999 while the status still reads finished. -/
theorem c8_terminal_status_counterexample :
    status_of dbC8 1 = some GameStatus.finished ∧
    (handle_roll_dice dbC8 100 1 4 999).2 = Outcome.completed ∧
    (get_game (handle_roll_dice dbC8 100 1 4 999).1 1).map
        (fun r => (r.game_data.dice_roll, r.last_action_at, r.status)) =
      some (4, 999, GameStatus.finished) ∧
    (get_game dbC8 1).map
        (fun r => (r.game_data.dice_roll, r.last_action_at)) =
      some (0, 0) := by
  decide

/-- Witness for C9: the stale active game `rowC1` (scan at time 1000, timeout
90) resolves against creator 100 holding the turn; opponent 200 is settled the
normal prize on top of balance 20 through the shared settlement path. -/
theorem c9_forced_forfeit_witness :
    rowC1.status = GameStatus.active ∧
    resolve_game dbC1 rowC1 =
      some (end_game_transaction dbC1 1 200 50 true) ∧
    (end_game_transaction dbC1 1 200 50 true).1.users 200 =
      some (20 + 50 * 2 * (1 - 10 / 100)) := by
  have h := c9_forced_forfeit dbC1 rowC1 90 1000 100 200 20 (by decide) rfl rfl
    (by decide) (by decide) (by decide)
  refine ⟨h.1, ?_, ?_⟩
  · simpa [rowC1] using h.2.1
  · simpa [rowC1] using h.2.2.1
